import Mathlib

/-!
Shallow embedding of the orbital rendering engine
(compass-quadrant frame map, rotation integrator, shader frame selection)
with proofs of the spec's testable properties.

Numbers are modelled as exact rationals (`ℚ`); JavaScript's `%` on numbers
(truncating remainder) is `jsMod`, GLSL's `mod` (flooring remainder) is
`glslMod`.
-/

/-- One sprite-atlas cell, from `QuadrantFrameMap.ts` (`CompassFrame`). -/
structure CompassFrame where
  direction : String
  angle : ℚ
  gridRow : ℚ
  gridCol : ℚ
  frameIndex : ℚ
deriving DecidableEq, Repr

/-- All 16 frames in grid (storage) order, from `QuadrantFrameMap.ts`
(`QUADRANT_GRID`). -/
def QUADRANT_GRID : List CompassFrame := [
  { direction := "N",   angle := 0,     gridRow := 0, gridCol := 0, frameIndex := 0 },
  { direction := "E",   angle := 90,    gridRow := 0, gridCol := 1, frameIndex := 1 },
  { direction := "S",   angle := 180,   gridRow := 0, gridCol := 2, frameIndex := 2 },
  { direction := "W",   angle := 270,   gridRow := 0, gridCol := 3, frameIndex := 3 },
  { direction := "NE",  angle := 45,    gridRow := 1, gridCol := 0, frameIndex := 4 },
  { direction := "SE",  angle := 135,   gridRow := 1, gridCol := 1, frameIndex := 5 },
  { direction := "SW",  angle := 225,   gridRow := 1, gridCol := 2, frameIndex := 6 },
  { direction := "NW",  angle := 315,   gridRow := 1, gridCol := 3, frameIndex := 7 },
  { direction := "NNE", angle := 22.5,  gridRow := 2, gridCol := 0, frameIndex := 8 },
  { direction := "ESE", angle := 112.5, gridRow := 2, gridCol := 1, frameIndex := 9 },
  { direction := "SSW", angle := 202.5, gridRow := 2, gridCol := 2, frameIndex := 10 },
  { direction := "WNW", angle := 292.5, gridRow := 2, gridCol := 3, frameIndex := 11 },
  { direction := "ENE", angle := 67.5,  gridRow := 3, gridCol := 0, frameIndex := 12 },
  { direction := "SSE", angle := 157.5, gridRow := 3, gridCol := 1, frameIndex := 13 },
  { direction := "WSW", angle := 247.5, gridRow := 3, gridCol := 2, frameIndex := 14 },
  { direction := "NNW", angle := 337.5, gridRow := 3, gridCol := 3, frameIndex := 15 }]

/-- Frame indices in angular (playback) order, from `QuadrantFrameMap.ts`
(`ANGULAR_SEQUENCE`). -/
def ANGULAR_SEQUENCE : List ℕ :=
  [0, 8, 4, 12, 1, 9, 5, 13, 2, 10, 6, 14, 3, 11, 7, 15]

/-- The standardized angular sequence the spec's section 9 prescribes
(`ANGULAR_SEQUENCE = [0,9,5,13,2,14,6,10,1,11,7,15,3,12,4,8]`), written
from the spec's words so it can be compared with the source's table. -/
def SPEC_ANGULAR_SEQUENCE : List ℕ :=
  [0, 9, 5, 13, 2, 14, 6, 10, 1, 11, 7, 15, 3, 12, 4, 8]

/-- Reverse lookup built exactly as the IIFE in `QuadrantFrameMap.ts`
(`FRAME_TO_ANGLE_INDEX`): start from `new Array(16)` (all cells empty,
modelled as `none`) and assign `result[frameIdx] = angleIdx` for each
`(angleIdx, frameIdx)` of `ANGULAR_SEQUENCE`. -/
def FRAME_TO_ANGLE_INDEX : List (Option ℕ) :=
  ANGULAR_SEQUENCE.enum.foldl (fun result p => result.set p.2 (some p.1))
    (List.replicate 16 none)

/-- Truncation toward zero, the rounding JavaScript's `%` applies to the
quotient. -/
def ratTrunc (q : ℚ) : ℤ := if 0 ≤ q then ⌊q⌋ else -⌊-q⌋

/-- JavaScript's `%` on numbers: remainder with the quotient truncated
toward zero. -/
def jsMod (a b : ℚ) : ℚ := a - b * ratTrunc (a / b)

/-- Result record of `getBlendFrames` (`QuadrantFrameMap.ts`). -/
structure BlendFrames where
  frameA : ℕ
  frameB : ℕ
  blend : ℚ
  angleIndexA : ℤ
  angleIndexB : ℤ
deriving DecidableEq, Repr

/-- Frame selection for a yaw angle, from `QuadrantFrameMap.ts`
(`getBlendFrames`).  The source computes `Math.floor(angleFloat) % 16` on a
non-negative value (yaw was normalized to `[0,360)` first), where
JavaScript's truncating `%` agrees with `Int.emod`. -/
def getBlendFrames (yawDegrees : ℚ) : BlendFrames :=
  let yaw := jsMod (jsMod yawDegrees 360 + 360) 360
  let angleFloat := yaw / 22.5
  let angleIndexA : ℤ := ⌊angleFloat⌋ % 16
  let angleIndexB : ℤ := (angleIndexA + 1) % 16
  let blend := angleFloat - ⌊angleFloat⌋
  { frameA := ANGULAR_SEQUENCE.getD angleIndexA.toNat 0
    frameB := ANGULAR_SEQUENCE.getD angleIndexB.toNat 0
    blend := blend
    angleIndexA := angleIndexA
    angleIndexB := angleIndexB }

/-- Angle in degrees for a frame index, from `QuadrantFrameMap.ts`
(`frameToAngle`): look the frame up in the grid, defaulting to 0 when no
entry matches. -/
def frameToAngle (frameIndex : ℚ) : ℚ :=
  match QUADRANT_GRID.find? (fun f => f.frameIndex == frameIndex) with
  | some frame => frame.angle
  | none => 0

/-- Shader-side orbital frame lookup, from the fragment shader in
`OrbitalShaderModules.ts` (`getOrbitalFrame`): wrap the angle index with
GLSL `mod` (flooring, matching `Int.emod` for the positive modulus 16),
then return the hard-coded frame constant. -/
def getOrbitalFrame (angleIndex : ℤ) : ℚ :=
  let idx := angleIndex % 16
  if idx = 0 then 0
  else if idx = 1 then 9
  else if idx = 2 then 5
  else if idx = 3 then 13
  else if idx = 4 then 2
  else if idx = 5 then 14
  else if idx = 6 then 6
  else if idx = 7 then 10
  else if idx = 8 then 1
  else if idx = 9 then 11
  else if idx = 10 then 7
  else if idx = 11 then 15
  else if idx = 12 then 3
  else if idx = 13 then 12
  else if idx = 14 then 4
  else 8

/-- GLSL `mod(x, y) = x - y * floor(x / y)` (flooring remainder). -/
def glslMod (x y : ℚ) : ℚ := x - y * ⌊x / y⌋

/-- GLSL `fract(x) = x - floor(x)`, which is Mathlib's `Int.fract`. -/
def glslFract (x : ℚ) : ℚ := Int.fract x

/-- GLSL `clamp(x, lo, hi) = min(max(x, lo), hi)`. -/
def glslClamp (x lo hi : ℚ) : ℚ := min (max x lo) hi

/-- The radians-to-degrees constant `57.2957795131` hard-coded in the
fragment shader of `OrbitalShaderModules.ts`. -/
def RAD_TO_DEG : ℚ := 57.2957795131

/-- Yaw normalization of the fragment shader's `main`
(`OrbitalShaderModules.ts`): convert `u_yaw` radians to degrees, reduce
`mod 360`, and add 360 if the result is negative. -/
def shaderYawDeg (u_yaw : ℚ) : ℚ :=
  let yawDeg := glslMod (u_yaw * RAD_TO_DEG) 360
  if yawDeg < 0 then yawDeg + 360 else yawDeg

/-- Fractional frame position `interp = fract(yawDeg / 22.5)` computed by
the orbital branch of the fragment shader's `main`
(`OrbitalShaderModules.ts`). -/
def orbitalInterp (u_yaw : ℚ) : ℚ := glslFract (shaderYawDeg u_yaw / 22.5)

/-- Velocity blur term `clamp(abs(u_velocity) * 0.05, 0.0, 0.15)` of the
fragment shader's `main` (`OrbitalShaderModules.ts`). -/
def orbitalVelocityBlur (u_velocity : ℚ) : ℚ := glslClamp (|u_velocity| * 0.05) 0 0.15

/-- Frame cross-fade weight `blend = clamp(interp + velocityBlur, 0.0, 1.0)`
of the fragment shader's `main` (`OrbitalShaderModules.ts`), the weight
passed to `mix(colorA, colorB, blend)`. -/
def orbitalBlend (u_yaw u_velocity : ℚ) : ℚ :=
  glslClamp (orbitalInterp u_yaw + orbitalVelocityBlur u_velocity) 0 1

/-- Ken Perlin smoother-step curve `t*t*t*(t*(t*6.0-15.0)+10.0)`, from the
superseded shader variant (`src/unnamed/part_003`, `smootherBlend`). -/
def smootherBlend (t : ℚ) : ℚ := t * t * t * (t * (t * 6 - 15) + 10)

/-- Example yaw (in radians) whose shader degree value is exactly 28.125,
a quarter of the way between angle indices 1 and 2. -/
def exampleYaw : ℚ := 281250000000 / 572957795131

/-- Render mode of `ProductOrbitVisualizer.ts` (`RenderMode`). -/
inductive RenderMode where
  | orbital
  | turnstile
deriving DecidableEq, Repr

/-- Mutable orientation state owned by `ProductOrbitVisualizer.ts`
(`currentYaw`, `currentPitch`, `velocity`, `renderMode`). -/
structure VisualizerState where
  currentYaw : ℚ
  currentPitch : ℚ
  velocity : ℚ
  renderMode : RenderMode
deriving DecidableEq, Repr

/-- The IEEE-754 double value of `Math.PI`, used by `updateFromRotor` for
full-turn wrapping of the yaw. -/
def MATH_PI : ℚ := 884279719003555 / 281474976710656

/-- Mode switch from `ProductOrbitVisualizer.ts` (`setRenderMode`): store
the new mode, and reset pitch to 0 only when that mode is turnstile. -/
def setRenderMode (mode : RenderMode) (s : VisualizerState) : VisualizerState :=
  let s1 := { s with renderMode := mode }
  if mode = RenderMode.turnstile then { s1 with currentPitch := 0 } else s1

/-- One rotor update input: the axis-angle pair that `toAxisAngle` produced
from the incoming quaternion, plus the elapsed time `dt`. -/
structure RotorInput where
  axis : ℚ × ℚ × ℚ
  angle : ℚ
  dt : ℚ

/-- State transition of `ProductOrbitVisualizer.ts` (`updateFromRotor`),
written over the axis-angle pair the source destructures from
`toAxisAngle(quaternion)` on entry; `a` is the axis `[x, y, z]`. -/
def updateFromRotor (a : ℚ × ℚ × ℚ) (angle dt : ℚ) (s : VisualizerState) : VisualizerState :=
  let yEnergy := a.2.1 * angle
  let xEnergy := a.1 * angle
  let yaw0 := s.currentYaw + yEnergy * 0.1
  let fullTurn := MATH_PI * 2
  let yaw1 := jsMod (jsMod yaw0 fullTurn + fullTurn) fullTurn
  let pitch1 :=
    if s.renderMode = RenderMode.orbital then
      max 0 (min 30 (s.currentPitch + xEnergy * 5))
    else 0
  let velocityScale := if dt > 0 then 1 / dt else 1
  let instantaneousVelocity := yEnergy * velocityScale
  let v1 := s.velocity * 0.9 + instantaneousVelocity * 0.1
  let v2 := max (-3) (min 3 v1)
  { currentYaw := yaw1, currentPitch := pitch1, velocity := v2,
    renderMode := s.renderMode }

/-- Fold of `updateFromRotor` over a list of rotor inputs. -/
def runRotorInputs (inputs : List RotorInput) (s : VisualizerState) : VisualizerState :=
  inputs.foldl (fun st i => updateFromRotor i.axis i.angle i.dt st) s

/-- Mutable state of `OrbitalInputBridge` (`src/unnamed/part_009`). -/
structure BridgeState where
  yaw : ℚ
  pitch : ℚ
  velocity : ℚ
  lastTime : ℚ
  dragging : Bool
deriving DecidableEq, Repr

/-- The bridge's friction constant 0.94 (`src/unnamed/part_009`). -/
def friction : ℚ := 0.94

/-- One animation tick of `OrbitalInputBridge.animate`
(`src/unnamed/part_009`) at wall-clock time `now`: when the pointer is up
and `|velocity|` exceeds the 0.0001 threshold, integrate yaw and apply
friction; in every case record `lastTime := now`. -/
def animate (now : ℚ) (s : BridgeState) : BridgeState :=
  let deltaTime := max 16 (now - s.lastTime)
  if s.dragging = false ∧ |s.velocity| > 0.0001 then
    { s with
      yaw := s.yaw + s.velocity * (deltaTime / 1000)
      velocity := s.velocity * friction
      lastTime := now }
  else { s with lastTime := now }

/-- Repeated animation ticks at the given wall-clock times. -/
def coastRun (nows : List ℚ) (s : BridgeState) : BridgeState :=
  nows.foldl (fun st t => animate t st) s

/-- Quaternion record from `quaternion.ts` (`src/unnamed/part_002`, named
`Quaternion` in the source; renamed here because Mathlib already declares
`Quaternion`). -/
structure Quat where
  x : ℚ
  y : ℚ
  z : ℚ
  w : ℚ
deriving DecidableEq, Repr

/-- Axis-angle record from `quaternion.ts` (`src/unnamed/part_002`). -/
structure AxisAngle where
  axis : ℚ × ℚ × ℚ
  angle : ℚ
deriving DecidableEq, Repr

/-- The clamped scalar part `Math.min(1, Math.max(-1, q.w))` computed by
`toAxisAngle` (`src/unnamed/part_002`). -/
def clampedW (q : Quat) : ℚ := min 1 (max (-1) q.w)

/-- Axis-angle recovery from `quaternion.ts` (`toAxisAngle`,
`src/unnamed/part_002`).  The transcendental library calls `Math.sqrt` and
`Math.acos` are passed as explicit function parameters `sqrt` and `acos`,
so every statement about this definition holds for all values those calls
could return. -/
def toAxisAngle (sqrt acos : ℚ → ℚ) (q : Quat) : AxisAngle :=
  let angle := 2 * acos (clampedW q)
  let sinHalf := sqrt (1 - clampedW q * clampedW q)
  if sinHalf < 0.0001 then { axis := (0, 1, 0), angle := 0 }
  else { axis := (q.x / sinHalf, q.y / sinHalf, q.z / sinHalf), angle := angle }

/-- Truncation toward zero applied to a non-negative argument is the
floor. -/
theorem ratTrunc_of_nonneg {q : ℚ} (h : 0 ≤ q) : ratTrunc q = ⌊q⌋ := if_pos h

/-- Evaluation helper: the floor of a rational squeezed between an integer
and its successor. -/
theorem floor_eval (n : ℤ) {q : ℚ} (h1 : (n : ℚ) ≤ q) (h2 : q < n + 1) : ⌊q⌋ = n :=
  Int.floor_eq_iff.mpr ⟨h1, h2⟩

/-- Evaluation helper: `jsMod a b = a` whenever `0 ≤ a < b`. -/
theorem jsMod_self_of_lt {a b : ℚ} (h0 : 0 ≤ a) (hb : 0 < b) (h1 : a < b) :
    jsMod a b = a := by
  unfold jsMod
  rw [ratTrunc_of_nonneg (div_nonneg h0 hb.le), floor_eval 0
    (by simpa using div_nonneg h0 hb.le) (by simpa using (div_lt_one hb).mpr h1)]
  simp

/-- C2. The exported `ANGULAR_SEQUENCE` does not equal the spec's
standardized sequence: already at angle index 1 the source stores frame 8
where the spec's table has frame 9, and the two lists differ. -/
theorem angular_sequence_ne_spec_standard :
    ANGULAR_SEQUENCE.getD 1 0 = 8 ∧ SPEC_ANGULAR_SEQUENCE.getD 1 0 = 9 ∧
    ANGULAR_SEQUENCE ≠ SPEC_ANGULAR_SEQUENCE := by
  decide

/-- C2 (amended). The exported constant `ANGULAR_SEQUENCE` equals
`[0, 8, 4, 12, 1, 9, 5, 13, 2, 10, 6, 14, 3, 11, 7, 15]`, entry for
entry. -/
theorem angular_sequence_value :
    ANGULAR_SEQUENCE = [0, 8, 4, 12, 1, 9, 5, 13, 2, 10, 6, 14, 3, 11, 7, 15] := by
  decide

/-- Evaluation of `frameToAngle` at the frame stored for angle index 0. -/
theorem seqFrameAngle0 : frameToAngle ((ANGULAR_SEQUENCE.getD 0 0 : ℕ) : ℚ) = 0 := rfl

/-- Evaluation of `frameToAngle` at the frame stored for angle index 1. -/
theorem seqFrameAngle1 : frameToAngle ((ANGULAR_SEQUENCE.getD 1 0 : ℕ) : ℚ) = 22.5 := rfl

/-- Evaluation of `frameToAngle` at the frame stored for angle index 2. -/
theorem seqFrameAngle2 : frameToAngle ((ANGULAR_SEQUENCE.getD 2 0 : ℕ) : ℚ) = 45 := rfl

/-- Evaluation of `frameToAngle` at the frame stored for angle index 3. -/
theorem seqFrameAngle3 : frameToAngle ((ANGULAR_SEQUENCE.getD 3 0 : ℕ) : ℚ) = 67.5 := rfl

/-- Evaluation of `frameToAngle` at the frame stored for angle index 4. -/
theorem seqFrameAngle4 : frameToAngle ((ANGULAR_SEQUENCE.getD 4 0 : ℕ) : ℚ) = 90 := rfl

/-- Evaluation of `frameToAngle` at the frame stored for angle index 5. -/
theorem seqFrameAngle5 : frameToAngle ((ANGULAR_SEQUENCE.getD 5 0 : ℕ) : ℚ) = 112.5 := rfl

/-- Evaluation of `frameToAngle` at the frame stored for angle index 6. -/
theorem seqFrameAngle6 : frameToAngle ((ANGULAR_SEQUENCE.getD 6 0 : ℕ) : ℚ) = 135 := rfl

/-- Evaluation of `frameToAngle` at the frame stored for angle index 7. -/
theorem seqFrameAngle7 : frameToAngle ((ANGULAR_SEQUENCE.getD 7 0 : ℕ) : ℚ) = 157.5 := rfl

/-- Evaluation of `frameToAngle` at the frame stored for angle index 8. -/
theorem seqFrameAngle8 : frameToAngle ((ANGULAR_SEQUENCE.getD 8 0 : ℕ) : ℚ) = 180 := rfl

/-- Evaluation of `frameToAngle` at the frame stored for angle index 9. -/
theorem seqFrameAngle9 : frameToAngle ((ANGULAR_SEQUENCE.getD 9 0 : ℕ) : ℚ) = 202.5 := rfl

/-- Evaluation of `frameToAngle` at the frame stored for angle index 10. -/
theorem seqFrameAngle10 : frameToAngle ((ANGULAR_SEQUENCE.getD 10 0 : ℕ) : ℚ) = 225 := rfl

/-- Evaluation of `frameToAngle` at the frame stored for angle index 11. -/
theorem seqFrameAngle11 : frameToAngle ((ANGULAR_SEQUENCE.getD 11 0 : ℕ) : ℚ) = 247.5 := rfl

/-- Evaluation of `frameToAngle` at the frame stored for angle index 12. -/
theorem seqFrameAngle12 : frameToAngle ((ANGULAR_SEQUENCE.getD 12 0 : ℕ) : ℚ) = 270 := rfl

/-- Evaluation of `frameToAngle` at the frame stored for angle index 13. -/
theorem seqFrameAngle13 : frameToAngle ((ANGULAR_SEQUENCE.getD 13 0 : ℕ) : ℚ) = 292.5 := rfl

/-- Evaluation of `frameToAngle` at the frame stored for angle index 14. -/
theorem seqFrameAngle14 : frameToAngle ((ANGULAR_SEQUENCE.getD 14 0 : ℕ) : ℚ) = 315 := rfl

/-- Evaluation of `frameToAngle` at the frame stored for angle index 15. -/
theorem seqFrameAngle15 : frameToAngle ((ANGULAR_SEQUENCE.getD 15 0 : ℕ) : ℚ) = 337.5 := rfl

/-- C3. For every angle index `i` in `[0,16)`, the frame stored at
position `i` of the angular sequence is exactly the `QUADRANT_GRID` frame
whose angle is `i * 22.5` degrees: the sequence and the grid are in
lock-step. -/
theorem angular_sequence_grid_lockstep :
    ∀ i : Fin 16, frameToAngle ((ANGULAR_SEQUENCE.getD i 0 : ℕ) : ℚ) = (i : ℕ) * 22.5 := by
  intro i
  obtain ⟨n, hn⟩ := i
  show frameToAngle ((ANGULAR_SEQUENCE.getD n 0 : ℕ) : ℚ) = (n : ℚ) * 22.5
  interval_cases n <;>
    simp only [seqFrameAngle0, seqFrameAngle1, seqFrameAngle2, seqFrameAngle3,
      seqFrameAngle4, seqFrameAngle5, seqFrameAngle6, seqFrameAngle7,
      seqFrameAngle8, seqFrameAngle9, seqFrameAngle10, seqFrameAngle11,
      seqFrameAngle12, seqFrameAngle13, seqFrameAngle14, seqFrameAngle15] <;>
    norm_num

/-- C4. `ANGULAR_SEQUENCE` is a bijection on `[0,16)` (length 16, no
duplicates, all entries below 16, every target hit) and
`FRAME_TO_ANGLE_INDEX` is its exact inverse:
`FRAME_TO_ANGLE_INDEX[ANGULAR_SEQUENCE[i]] = i` for every `i` in
`[0,16)`. -/
theorem angular_sequence_bijection_inverse :
    ANGULAR_SEQUENCE.length = 16 ∧ ANGULAR_SEQUENCE.Nodup ∧
    (∀ i : Fin 16, ANGULAR_SEQUENCE.getD i 0 < 16) ∧
    (∀ j : Fin 16, ∃ i : Fin 16, ANGULAR_SEQUENCE.getD i 0 = (j : ℕ)) ∧
    (∀ i : Fin 16, FRAME_TO_ANGLE_INDEX.getD (ANGULAR_SEQUENCE.getD i 0) none = some (i : ℕ)) := by
  decide

/-- C1. The CPU-side and shader-side angular-sequence tables are not
identical: at angle index 1 (yaw 22.5 degrees) the input side selects
frame 8 (`ANGULAR_SEQUENCE[1]`, as consumed by `getBlendFrames`), while
the in-shader lookup `getOrbitalFrame(1)` returns frame 9. -/
theorem cpu_and_shader_sequence_disagree :
    (getBlendFrames 22.5).frameA = 8 ∧ ((ANGULAR_SEQUENCE.getD 1 0 : ℕ) : ℚ) = 8 ∧
    getOrbitalFrame 1 = 9 ∧ ((8 : ℚ) ≠ 9) := by
  refine ⟨?_, rfl, rfl, by norm_num⟩
  have e1 : jsMod (22.5 : ℚ) 360 = 22.5 := jsMod_self_of_lt (by norm_num) (by norm_num) (by norm_num)
  have e2 : jsMod (22.5 + 360 : ℚ) 360 = 22.5 := by
    unfold jsMod
    rw [ratTrunc_of_nonneg (by norm_num), floor_eval 1 (by norm_num) (by norm_num)]
    norm_num
  simp only [getBlendFrames, e1, e2]
  have e3 : (22.5 : ℚ) / 22.5 = 1 := by norm_num
  rw [e3, Int.floor_one]
  rfl

/-- C5 (counterexample). At the concrete yaw `exampleYaw` (28.125 shader
degrees, fractional frame position 1/4) and zero velocity, the active
render pipeline's cross-fade weight is the raw linear fraction 1/4, not
the smoother-step value 53/512 that the claim requires. -/
theorem active_blend_not_smootherstep :
    orbitalInterp exampleYaw = 1/4 ∧
    orbitalBlend exampleYaw 0 = 1/4 ∧
    smootherBlend (orbitalInterp exampleYaw) = 53/512 ∧
    orbitalBlend exampleYaw 0 ≠ smootherBlend (orbitalInterp exampleYaw) := by
  have hdeg : exampleYaw * RAD_TO_DEG = 28.125 := by
    norm_num [exampleYaw, RAD_TO_DEG]
  have hmod : glslMod (28.125 : ℚ) 360 = 28.125 := by
    unfold glslMod
    rw [floor_eval 0 (by norm_num) (by norm_num)]
    norm_num
  have hyaw : shaderYawDeg exampleYaw = 28.125 := by
    unfold shaderYawDeg
    rw [hdeg, hmod, if_neg (by norm_num)]
  have hinterp : orbitalInterp exampleYaw = 1/4 := by
    unfold orbitalInterp glslFract
    rw [hyaw]
    have h54 : (28.125 : ℚ) / 22.5 = 5/4 := by norm_num
    rw [h54, Int.fract]
    rw [floor_eval 1 (by norm_num) (by norm_num)]
    norm_num
  have hblur : orbitalVelocityBlur 0 = 0 := by
    unfold orbitalVelocityBlur glslClamp
    norm_num
  have hblend : orbitalBlend exampleYaw 0 = 1/4 := by
    unfold orbitalBlend glslClamp
    rw [hinterp, hblur]
    norm_num
  have hsm : smootherBlend (orbitalInterp exampleYaw) = 53/512 := by
    rw [hinterp]
    unfold smootherBlend
    norm_num
  exact ⟨hinterp, hblend, hsm, by rw [hblend, hsm]; norm_num⟩

/-- C5 (amended). At zero velocity the active render pipeline's frame
cross-fade weight equals the raw linear fractional frame position for
every yaw value: the clamp is the identity there, and no smoother-step
easing is applied. -/
theorem active_blend_linear_at_zero_velocity (u_yaw : ℚ) :
    orbitalBlend u_yaw 0 = orbitalInterp u_yaw := by
  have h0 : 0 ≤ orbitalInterp u_yaw := Int.fract_nonneg _
  have h1 : orbitalInterp u_yaw < 1 := Int.fract_lt_one _
  have hblur : orbitalVelocityBlur 0 = 0 := by
    unfold orbitalVelocityBlur glslClamp
    norm_num
  unfold orbitalBlend glslClamp
  rw [hblur, add_zero, max_eq_left h0, min_eq_left h1.le]

/-- A single animation tick never increases the velocity magnitude. -/
theorem animate_abs_velocity_le (t : ℚ) (s : BridgeState) :
    |(animate t s).velocity| ≤ |s.velocity| := by
  unfold animate
  by_cases h : s.dragging = false ∧ |s.velocity| > 0.0001
  · rw [if_pos h]
    show |s.velocity * friction| ≤ |s.velocity|
    rw [abs_mul, show |friction| = 94/100 from by norm_num [friction]]
    calc |s.velocity| * (94/100) ≤ |s.velocity| * 1 :=
          mul_le_mul_of_nonneg_left (by norm_num) (abs_nonneg _)
      _ = |s.velocity| := mul_one _
  · rw [if_neg h]

/-- A tick at a velocity magnitude at or below the threshold leaves the
velocity untouched. -/
theorem animate_velocity_frozen (t : ℚ) (s : BridgeState)
    (h : |s.velocity| ≤ 0.0001) : (animate t s).velocity = s.velocity := by
  unfold animate
  rw [if_neg fun hc => absurd hc.2 (not_lt.mpr h)]

/-- A tick never changes the dragging flag. -/
theorem animate_dragging (t : ℚ) (s : BridgeState) :
    (animate t s).dragging = s.dragging := by
  unfold animate
  split <;> rfl

/-- Across any run of ticks the velocity magnitude never increases. -/
theorem coastRun_abs_velocity_le (nows : List ℚ) :
    ∀ s : BridgeState, |(coastRun nows s).velocity| ≤ |s.velocity| := by
  induction nows with
  | nil => intro s; exact le_refl _
  | cons t rest ih =>
    intro s
    calc |(coastRun (t :: rest) s).velocity|
        = |(coastRun rest (animate t s)).velocity| := rfl
      _ ≤ |(animate t s).velocity| := ih _
      _ ≤ |s.velocity| := animate_abs_velocity_le t s

/-- Once at or below the threshold, the velocity never changes again. -/
theorem coastRun_velocity_frozen (nows : List ℚ) :
    ∀ s : BridgeState, |s.velocity| ≤ 0.0001 →
      (coastRun nows s).velocity = s.velocity := by
  induction nows with
  | nil => intro s _; rfl
  | cons t rest ih =>
    intro s h
    have h1 : (animate t s).velocity = s.velocity := animate_velocity_frozen t s h
    calc (coastRun (t :: rest) s).velocity
        = (coastRun rest (animate t s)).velocity := rfl
      _ = (animate t s).velocity := ih _ (by rw [h1]; exact h)
      _ = s.velocity := h1

/-- Geometric decay bound for a coasting run with the pointer up: after
`n` ticks the velocity magnitude is at most
`max (0.94 ^ n * |v0|) 0.0001`. -/
theorem coastRun_velocity_bound (nows : List ℚ) :
    ∀ s : BridgeState, s.dragging = false →
      |(coastRun nows s).velocity| ≤
        max ((94/100) ^ nows.length * |s.velocity|) 0.0001 := by
  induction nows with
  | nil =>
    intro s _
    rw [List.length_nil, pow_zero, one_mul]
    exact le_max_left _ _
  | cons t rest ih =>
    intro s hdrag
    by_cases hv : |s.velocity| > 0.0001
    · have hstep : (animate t s).velocity = s.velocity * friction := by
        unfold animate
        rw [if_pos ⟨hdrag, hv⟩]
      have hd2 : (animate t s).dragging = false := by
        rw [animate_dragging]; exact hdrag
      calc |(coastRun (t :: rest) s).velocity|
          = |(coastRun rest (animate t s)).velocity| := rfl
        _ ≤ max ((94/100) ^ rest.length * |(animate t s).velocity|) 0.0001 := ih _ hd2
        _ = max ((94/100) ^ (t :: rest).length * |s.velocity|) 0.0001 := by
            congr 1
            rw [hstep, abs_mul, show |friction| = 94/100 from by norm_num [friction],
              List.length_cons, pow_succ]
            ring
    · have hle : |s.velocity| ≤ 0.0001 := not_lt.mp hv
      have h1 : (animate t s).velocity = s.velocity := animate_velocity_frozen t s hle
      have h2 : (coastRun (t :: rest) s).velocity = s.velocity := by
        show (coastRun rest (animate t s)).velocity = s.velocity
        rw [coastRun_velocity_frozen rest _ (by rw [h1]; exact hle), h1]
      rw [h2]
      exact le_max_of_le_right hle

/-- C6 (counterexample). A coast tick at a velocity already below the
epsilon threshold leaves it untouched and nonzero: the bridge never snaps
velocity to exactly 0, it only stops applying it. -/
theorem coast_below_epsilon_not_snapped :
    (animate 16 { yaw := 0, pitch := 0, velocity := 1/20000, lastTime := 0,
                  dragging := false }).velocity = 1/20000 ∧ ((1/20000 : ℚ) ≠ 0) := by
  constructor
  · have habs : |(1/20000 : ℚ)| ≤ 0.0001 := by
      rw [abs_of_nonneg (by norm_num : (0:ℚ) ≤ 1/20000)]
      norm_num
    exact animate_velocity_frozen 16 _ habs
  · norm_num

/-- C6 (amended). With the pointer up, the velocity magnitude is
non-increasing under repeated coast ticks, it is frozen (never modified
again, in particular never snapped to 0) once it is at or below the
0.0001 threshold, and a bounded number of ticks suffices to bring it to
or below that threshold. -/
theorem coast_velocity_decay (s : BridgeState) (hdrag : s.dragging = false) :
    (∀ nows : List ℚ, |(coastRun nows s).velocity| ≤ |s.velocity|) ∧
    (|s.velocity| ≤ 0.0001 →
      ∀ nows : List ℚ, (coastRun nows s).velocity = s.velocity) ∧
    (∃ N : ℕ, ∀ nows : List ℚ, N ≤ nows.length →
      |(coastRun nows s).velocity| ≤ 0.0001) := by
  refine ⟨fun nows => coastRun_abs_velocity_le nows s,
    fun h nows => coastRun_velocity_frozen nows s h, ?_⟩
  by_cases hv : |s.velocity| ≤ 0.0001
  · exact ⟨0, fun nows _ => by rw [coastRun_velocity_frozen nows s hv]; exact hv⟩
  · push_neg at hv
    have habs : 0 < |s.velocity| := lt_trans (by norm_num) hv
    obtain ⟨N, hN⟩ := exists_pow_lt_of_lt_one
      (div_pos (by norm_num : (0:ℚ) < 0.0001) habs) (by norm_num : (94/100 : ℚ) < 1)
    refine ⟨N, fun nows hlen => ?_⟩
    have hpow : (94/100 : ℚ) ^ nows.length ≤ (94/100) ^ N :=
      pow_le_pow_of_le_one (by norm_num) (by norm_num) hlen
    have hkey : (94/100 : ℚ) ^ nows.length * |s.velocity| ≤ 0.0001 := by
      have h2 : (94/100 : ℚ) ^ N * |s.velocity| < 0.0001 := (lt_div_iff₀ habs).mp hN
      calc (94/100 : ℚ) ^ nows.length * |s.velocity|
          ≤ (94/100) ^ N * |s.velocity| :=
            mul_le_mul_of_nonneg_right hpow (abs_nonneg _)
        _ ≤ 0.0001 := h2.le
    calc |(coastRun nows s).velocity|
        ≤ max ((94/100) ^ nows.length * |s.velocity|) 0.0001 :=
          coastRun_velocity_bound nows s hdrag
      _ ≤ 0.0001 := max_le hkey (le_refl _)

/-- Witness for C6 (amended): the theorem applied to a concrete coasting
state with the pointer up and velocity 1. -/
theorem coast_velocity_decay_witness :
    |(coastRun [16] { yaw := 0, pitch := 0, velocity := 1, lastTime := 0,
                      dragging := false }).velocity| ≤
    |({ yaw := 0, pitch := 0, velocity := 1, lastTime := 0,
        dragging := false } : BridgeState).velocity| :=
  (coast_velocity_decay
    { yaw := 0, pitch := 0, velocity := 1, lastTime := 0, dragging := false } rfl).1 [16]

/-- The rotor update never changes the render mode. -/
theorem updateFromRotor_renderMode (a : ℚ × ℚ × ℚ) (ang dt : ℚ) (s : VisualizerState) :
    (updateFromRotor a ang dt s).renderMode = s.renderMode := rfl

/-- Unfolding of the pitch component of the rotor update. -/
theorem updateFromRotor_currentPitch (a : ℚ × ℚ × ℚ) (ang dt : ℚ) (s : VisualizerState) :
    (updateFromRotor a ang dt s).currentPitch =
      if s.renderMode = RenderMode.orbital then
        max 0 (min 30 (s.currentPitch + a.1 * ang * 5))
      else 0 := rfl

/-- C7. For any nonempty sequence of rotor updates: if the render mode is
orbital after the run, the pitch lies in `[0, 30]`; if it is turnstile,
the pitch is exactly 0.  Instantiating the sequence at every prefix gives
the invariant after every call. -/
theorem update_from_rotor_pitch_invariant (inputs : List RotorInput)
    (s : VisualizerState) (h : inputs ≠ []) :
    ((runRotorInputs inputs s).renderMode = RenderMode.orbital →
      0 ≤ (runRotorInputs inputs s).currentPitch ∧
        (runRotorInputs inputs s).currentPitch ≤ 30) ∧
    ((runRotorInputs inputs s).renderMode = RenderMode.turnstile →
      (runRotorInputs inputs s).currentPitch = 0) := by
  rcases inputs.eq_nil_or_concat' with rfl | ⟨L, b, rfl⟩
  · exact absurd rfl h
  · have hrun : runRotorInputs (L ++ [b]) s =
        updateFromRotor b.axis b.angle b.dt (runRotorInputs L s) := by
      unfold runRotorInputs
      rw [List.foldl_append]
      rfl
    rw [hrun, updateFromRotor_renderMode, updateFromRotor_currentPitch]
    constructor
    · intro hm
      rw [if_pos hm]
      exact ⟨le_max_left _ _, max_le (by norm_num) (min_le_left _ _)⟩
    · intro hm
      rw [if_neg (by simp [hm])]

/-- Witness for C7: one rotor update in orbital mode from the initial
state keeps pitch inside `[0, 30]`. -/
theorem update_from_rotor_pitch_invariant_witness :
    0 ≤ (runRotorInputs [{ axis := (0, 0, 0), angle := 0, dt := 0 }]
      { currentYaw := 0, currentPitch := 0, velocity := 0,
        renderMode := RenderMode.orbital }).currentPitch ∧
    (runRotorInputs [{ axis := (0, 0, 0), angle := 0, dt := 0 }]
      { currentYaw := 0, currentPitch := 0, velocity := 0,
        renderMode := RenderMode.orbital }).currentPitch ≤ 30 :=
  (update_from_rotor_pitch_invariant _ _ (by simp)).1 rfl

/-- C8 (counterexample). Calling `setRenderMode('orbital')` with a prior
pitch of 10 leaves the pitch at 10, not 0: switching render modes does
not always reset pitch. -/
theorem set_render_mode_orbital_keeps_pitch :
    (setRenderMode RenderMode.orbital
      { currentYaw := 0, currentPitch := 10, velocity := 0,
        renderMode := RenderMode.orbital }).currentPitch = 10 ∧
    ((10 : ℚ) ≠ 0) :=
  ⟨rfl, by norm_num⟩

/-- C8 (amended). `setRenderMode` resets pitch to 0 only when the new
mode is turnstile; switching to orbital leaves the pitch unchanged.  The
requested mode is always stored. -/
theorem set_render_mode_pitch_reset (s : VisualizerState) (mode : RenderMode) :
    (setRenderMode RenderMode.turnstile s).currentPitch = 0 ∧
    (setRenderMode RenderMode.orbital s).currentPitch = s.currentPitch ∧
    (setRenderMode mode s).renderMode = mode := by
  refine ⟨rfl, rfl, ?_⟩
  cases mode <;> rfl

/-- C9. `toAxisAngle` is total and never divides by zero: whenever the
computed `sinHalf` falls below the 0.0001 threshold it returns the fixed
default axis `[0, 1, 0]` with angle 0, and in the branch that divides,
the divisor `sinHalf` is nonzero.  This holds for every quaternion and
for all values the `Math.sqrt`/`Math.acos` calls could return. -/
theorem to_axis_angle_degenerate_total (sqrt acos : ℚ → ℚ) (q : Quat) :
    (sqrt (1 - clampedW q * clampedW q) < 0.0001 →
      toAxisAngle sqrt acos q = { axis := (0, 1, 0), angle := 0 }) ∧
    (¬ sqrt (1 - clampedW q * clampedW q) < 0.0001 →
      sqrt (1 - clampedW q * clampedW q) ≠ 0) := by
  constructor
  · intro h
    simp only [toAxisAngle]
    rw [if_pos h]
  · intro h hz
    apply h
    rw [hz]
    norm_num

/-- Witness for C9: the identity quaternion with a square root returning
0 on 0 lands in the degenerate branch and produces the default axis. -/
theorem to_axis_angle_degenerate_total_witness :
    toAxisAngle (fun _ => 0) (fun _ => 0) { x := 0, y := 0, z := 0, w := 1 } =
      { axis := (0, 1, 0), angle := 0 } :=
  (to_axis_angle_degenerate_total (fun _ => 0) (fun _ => 0)
    { x := 0, y := 0, z := 0, w := 1 }).1 (by norm_num)

/-- Helper for C10: a grid frame index (an integer between 0 and 15)
never equals an out-of-range or non-integer query. -/
theorem integer_frame_ne {x : ℚ} (h : x < 0 ∨ 16 ≤ x ∨ x.den ≠ 1)
    (c : ℚ) (h0 : 0 ≤ c) (h1 : c < 16) (hd : c.den = 1) :
    ¬((c == x) = true) := by
  intro hcx
  have hcx2 : c = x := eq_of_beq hcx
  subst hcx2
  rcases h with h | h | h
  · exact absurd h0 (not_le.mpr h)
  · exact absurd h1 (not_lt.mpr h)
  · exact h hd

/-- C10. `frameToAngle` is total: for any frame index with no matching
entry in `QUADRANT_GRID` (negative, 16 or larger, or non-integer) it
returns 0. -/
theorem frame_to_angle_total_default (x : ℚ)
    (h : x < 0 ∨ 16 ≤ x ∨ x.den ≠ 1) : frameToAngle x = 0 := by
  have hfind : QUADRANT_GRID.find? (fun f => f.frameIndex == x) = none := by
    rw [List.find?_eq_none]
    intro f hf
    fin_cases hf <;> exact integer_frame_ne h _ (by norm_num) (by norm_num) rfl
  unfold frameToAngle
  rw [hfind]

/-- Witness for C10: the out-of-range frame index 17 maps to angle 0. -/
theorem frame_to_angle_total_default_witness : frameToAngle 17 = 0 :=
  frame_to_angle_total_default 17 (Or.inr (Or.inl (by norm_num)))
